import Mathlib

/-!
Verification of the two PRNG engines of this repository: the PCG-32 generator
(src/prng/pcg.rs) and the xoshiro256** generator (src/prng/xoshiro256.rs).
Machine words are modelled as Nat with explicit reduction mod 2^64 (resp.
2^32) wherever the Rust code uses wrapping arithmetic or casts.
-/

namespace RandSpec

/-- Rotate a 64-bit word left by k bits (Rust u64::rotate_left for 0 < k < 64). -/
def rotl64 (x k : Nat) : Nat :=
  ((x <<< k) % 2 ^ 64) ||| (x >>> (64 - k))

/-- Rotate a 32-bit word right by k bits (Rust u32::rotate_right; the shift
amount is taken mod 32, as the Rust intrinsic does). -/
def rotr32 (x k : Nat) : Nat :=
  ((x % 2 ^ 32) >>> (k % 32)) ||| ((x <<< (32 - k % 32)) % 2 ^ 32)

/-- Modelled from the spec: the seed-decoding step of rand_core
(le::read_u64_into), which is part of this repository but not under src/.
Spec section 3: seeds are decoded as little-endian 64-bit words.  The first
byte of the list is the least significant; each byte is a u8 (reduced mod 256). -/
def read_u64_le (bytes : List Nat) : Nat :=
  bytes.foldr (fun b acc => b % 256 + 256 * acc) 0

/-- Little-endian byte decomposition of a 64-bit word (Rust u64::to_le_bytes). -/
def toLeBytes8 (v : Nat) : List Nat :=
  [v % 256, (v >>> 8) % 256, (v >>> 16) % 256, (v >>> 24) % 256,
   (v >>> 32) % 256, (v >>> 40) % 256, (v >>> 48) % 256, (v >>> 56) % 256]

/-- Modelled from the spec: rand_core impls::fill_bytes_via_next, which is part
of this repository but not under src/.  Spec section 4.1: fill an
arbitrary-length buffer by repeatedly drawing next_u64 outputs and copying
their little-endian byte representation, truncating the final partial word to
the remaining buffer length.  The buffer is modelled by its length; the result
is the list of bytes written together with the final generator state. -/
def fillBytesVia {σ : Type} (next : σ → Nat × σ) (g : σ) (len : Nat) :
    List Nat × σ :=
  if len = 0 then ([], g)
  else if 8 ≤ len then
    let p := next g
    let q := fillBytesVia next p.2 (len - 8)
    (toLeBytes8 p.1 ++ q.1, q.2)
  else
    let p := next g
    ((toLeBytes8 p.1).take len, p.2)
termination_by len
decreasing_by omega

/-- The sequence of n next_u64 draws from state g: the list of outputs in draw
order together with the final state (reference definition for stating the
fill_bytes consistency property). -/
def drawU64s {σ : Type} (next : σ → Nat × σ) (g : σ) : Nat → List Nat × σ
  | 0 => ([], g)
  | n + 1 =>
    let p := next g
    let q := drawU64s next p.2 n
    (p.1 :: q.1, q.2)



/-! ## The PCG engine (src/prng/pcg.rs) -/
def PCG_DEFAULT_MULTIPLIER_64 : Nat := 6364136223846793005

/-- PCG-32 generator state: two 64-bit words (src/prng/pcg.rs lines 28-31). -/
structure PcgRng where
  state : Nat
  inc : Nat
deriving DecidableEq

/-- PcgRng::next_u32 (src/prng/pcg.rs lines 82-89): returns the output
permutation of the pre-update state and the updated generator. -/
def PcgRng.next_u32 (g : PcgRng) : Nat × PcgRng :=
  let s := g.state
  let p := (((s >>> 18) ^^^ s) >>> 27) % 2 ^ 32
  (rotr32 p ((s >>> 59) % 2 ^ 32),
   ⟨(s * PCG_DEFAULT_MULTIPLIER_64 + g.inc) % 2 ^ 64, g.inc⟩)

/-- Modelled from the spec: rand_core impls::next_u64_via_u32, which is part of
this repository but not under src/.  Spec section 4.1: the 64-bit word is
composed from two successive next_u32 draws in a fixed order; the first draw
supplies the low 32 bits and the second the high 32 bits. -/
def next_u64_via_u32 {σ : Type} (next : σ → Nat × σ) (g : σ) : Nat × σ :=
  let p1 := next g
  let p2 := next p1.2
  ((p2.1 <<< 32) ||| p1.1, p2.2)

/-- PcgRng::next_u64 (src/prng/pcg.rs lines 91-94). -/
def PcgRng.next_u64 (g : PcgRng) : Nat × PcgRng :=
  next_u64_via_u32 PcgRng.next_u32 g

/-- PcgRng::new (src/prng/pcg.rs lines 42-54): seed the generator from two
64-bit words with the two-step warm-up. -/
def PcgRng.new (state seq : Nat) : PcgRng :=
  let rng0 : PcgRng := ⟨0, ((seq <<< 1) % 2 ^ 64) ||| 1⟩
  let rng1 := (rng0.next_u32).2
  let rng2 : PcgRng := ⟨(rng1.state + state) % 2 ^ 64, rng1.inc⟩
  (rng2.next_u32).2

/-- The loop body of PcgRng::advance (src/prng/pcg.rs lines 57-77): binary
exponentiation of the affine step map; returns the accumulated multiplier and
increment. -/
def PcgRng.advanceAux (delta cur_mult cur_plus acc_mult acc_plus : Nat) :
    Nat × Nat :=
  if delta = 0 then (acc_mult, acc_plus)
  else
    let am := if delta &&& 1 > 0 then (acc_mult * cur_mult) % 2 ^ 64 else acc_mult
    let ap := if delta &&& 1 > 0 then (acc_plus * cur_mult + cur_plus) % 2 ^ 64 else acc_plus
    PcgRng.advanceAux (delta / 2) ((cur_mult * cur_mult) % 2 ^ 64)
      ((((cur_mult + 1) % 2 ^ 64) * cur_plus) % 2 ^ 64) am ap
termination_by delta
decreasing_by exact Nat.div_lt_self (Nat.pos_of_ne_zero (by assumption)) (by omega)

/-- PcgRng::advance (src/prng/pcg.rs lines 57-77). -/
def PcgRng.advance (g : PcgRng) (delta : Nat) : PcgRng :=
  let p := PcgRng.advanceAux delta PCG_DEFAULT_MULTIPLIER_64 g.inc 1 0
  ⟨(p.1 * g.state + p.2) % 2 ^ 64, g.inc⟩

/-- PcgRng::from_seed (src/prng/pcg.rs lines 109-114): decode 16 seed bytes as
two little-endian 64-bit words and delegate to PcgRng::new. -/
def PcgRng.from_seed (seed : List Nat) : PcgRng :=
  PcgRng.new (read_u64_le (seed.take 8)) (read_u64_le ((seed.drop 8).take 8))

/-- PcgRng::fill_bytes (src/prng/pcg.rs lines 97-99). -/
def PcgRng.fill_bytes (g : PcgRng) (len : Nat) : List Nat × PcgRng :=
  fillBytesVia PcgRng.next_u64 g len

/-- PcgRng::try_fill_bytes (src/prng/pcg.rs lines 101-103): always Ok. -/
def PcgRng.try_fill_bytes {ε : Type} (g : PcgRng) (len : Nat) :
    Except ε (List Nat × PcgRng) :=
  Except.ok (g.fill_bytes len)



/-! ## The xoshiro256** engine (src/prng/xoshiro256.rs) -/
/-- The jump polynomial constant (src/prng/xoshiro256.rs lines 17-22). -/
def JUMP : List Nat :=
  [0x180EC6D33CFD0ABA, 0xD5A61266F0C9392C, 0xA9582618E03FC9AA, 0x39ABDC4529B1661C]

/-- Xoshiro256** generator state: four 64-bit words
(src/prng/xoshiro256.rs lines 34-39). -/
@[ext]

structure Xoshiro256AARng where
  s0 : Nat
  s1 : Nat
  s2 : Nat
  s3 : Nat
deriving DecidableEq

/-- Xoshiro256AARng::next_u64 (src/prng/xoshiro256.rs lines 83-97): the
starstar output of the pre-update state, then the linear state update. -/
def Xoshiro256AARng.next_u64 (g : Xoshiro256AARng) : Nat × Xoshiro256AARng :=
  let result := (rotl64 ((g.s1 * 5) % 2 ^ 64) 7 * 9) % 2 ^ 64
  let t := (g.s1 <<< 17) % 2 ^ 64
  let s2 := g.s2 ^^^ g.s0
  let s3 := g.s3 ^^^ g.s1
  let s1 := g.s1 ^^^ s2
  let s0 := g.s0 ^^^ s3
  let s2 := s2 ^^^ t
  let s3 := rotl64 s3 45
  (result, ⟨s0, s1, s2, s3⟩)

/-- Xoshiro256AARng::next_u32 (src/prng/xoshiro256.rs lines 78-80): one
next_u64 step, masked to the low 32 bits. -/
def Xoshiro256AARng.next_u32 (g : Xoshiro256AARng) : Nat × Xoshiro256AARng :=
  let p := g.next_u64
  (p.1 &&& 0xFFFFFFFF, p.2)

/-- The state-update part of next_u64 (discarding the output). -/
def Xoshiro256AARng.step (g : Xoshiro256AARng) : Xoshiro256AARng :=
  (g.next_u64).2

/-- Componentwise xor of two xoshiro states. -/
def xor4 (a b : Xoshiro256AARng) : Xoshiro256AARng :=
  ⟨a.s0 ^^^ b.s0, a.s1 ^^^ b.s1, a.s2 ^^^ b.s2, a.s3 ^^^ b.s3⟩

/-- The all-zero xoshiro state. -/
def zero4 : Xoshiro256AARng := ⟨0, 0, 0, 0⟩

/-- Xoshiro256AARng::jump (src/prng/xoshiro256.rs lines 51-73): for each word
of JUMP in array order and each of its 64 bits ascending, conditionally xor an
accumulator (initially zero) with the current state, then step the generator;
the accumulator becomes the new state. -/
def jumpBody (i : Nat) (q : Xoshiro256AARng × Xoshiro256AARng) (b : Nat) :
    Xoshiro256AARng × Xoshiro256AARng :=
  (if i &&& (1 <<< b) > 0 then xor4 q.1 q.2 else q.1, q.2.step)

/-- The inner loop of jump: one word i of JUMP, bits b = 0..63 ascending. -/
def jumpWord (p : Xoshiro256AARng × Xoshiro256AARng) (i : Nat) :
    Xoshiro256AARng × Xoshiro256AARng :=
  (List.range 64).foldl (jumpBody i) p

def Xoshiro256AARng.jump (g : Xoshiro256AARng) : Xoshiro256AARng :=
  (JUMP.foldl jumpWord (zero4, g)).1

/-- Xoshiro256AARng::from_seed (src/prng/xoshiro256.rs lines 112-134): decode
32 seed bytes as four little-endian 64-bit words; an all-zero decode is
replaced by the hard-coded non-zero preset. -/
def Xoshiro256AARng.from_seed (seed : List Nat) : Xoshiro256AARng :=
  let w0 := read_u64_le (seed.take 8)
  let w1 := read_u64_le ((seed.drop 8).take 8)
  let w2 := read_u64_le ((seed.drop 16).take 8)
  let w3 := read_u64_le ((seed.drop 24).take 8)
  if w0 = 0 ∧ w1 = 0 ∧ w2 = 0 ∧ w3 = 0 then
    ⟨0x28EF3C47A831FD1C, 0x8E975A1178A024DB, 0x847707765ECFACC4, 0xB35F3DAC565901B4⟩
  else
    ⟨w0, w1, w2, w3⟩

/-- Xoshiro256AARng::from_rng (src/prng/xoshiro256.rs lines 136-157).  The
upstream entropy source is modelled by the finite trace of its successive
try_fill_bytes results (each either an error or the 32 bytes drawn); the loop
re-draws while the decode is all-zero, so Except.ok none models exhausting the
trace without obtaining a non-zero seed. -/
def Xoshiro256AARng.from_rng {ε : Type} :
    List (Except ε (List Nat)) → Except ε (Option Xoshiro256AARng)
  | [] => Except.ok none
  | Except.error e :: _ => Except.error e
  | Except.ok bytes :: rest =>
    let w0 := read_u64_le (bytes.take 8)
    let w1 := read_u64_le ((bytes.drop 8).take 8)
    let w2 := read_u64_le ((bytes.drop 16).take 8)
    let w3 := read_u64_le ((bytes.drop 24).take 8)
    if w0 = 0 ∧ w1 = 0 ∧ w2 = 0 ∧ w3 = 0 then Xoshiro256AARng.from_rng rest
    else Except.ok (some ⟨w0, w1, w2, w3⟩)

/-- Xoshiro256AARng::fill_bytes (src/prng/xoshiro256.rs lines 100-102). -/
def Xoshiro256AARng.fill_bytes (g : Xoshiro256AARng) (len : Nat) :
    List Nat × Xoshiro256AARng :=
  fillBytesVia Xoshiro256AARng.next_u64 g len

/-- Xoshiro256AARng::try_fill_bytes (src/prng/xoshiro256.rs lines 104-106):
always Ok. -/
def Xoshiro256AARng.try_fill_bytes {ε : Type} (g : Xoshiro256AARng) (len : Nat) :
    Except ε (List Nat × Xoshiro256AARng) :=
  Except.ok (g.fill_bytes len)

/-- The all-zero-state predicate for the xoshiro invariant. -/
def Xoshiro256AARng.AllZero (g : Xoshiro256AARng) : Prop :=
  g.s0 = 0 ∧ g.s1 = 0 ∧ g.s2 = 0 ∧ g.s3 = 0

instance (g : Xoshiro256AARng) : Decidable g.AllZero := by
  unfold Xoshiro256AARng.AllZero; infer_instance

/-- Well-formedness: each state word fits in 64 bits (as the Rust u64 fields do). -/
def Xoshiro256AARng.Wf (g : Xoshiro256AARng) : Prop :=
  g.s0 < 2 ^ 64 ∧ g.s1 < 2 ^ 64 ∧ g.s2 < 2 ^ 64 ∧ g.s3 < 2 ^ 64

/-- Application of the affine map x maps-to (cm * x + cp) mod 2^64, the shape
in which advance composes step maps. -/
def affApply (cm cp s : Nat) : Nat := (cm * s + cp) % 2 ^ 64

def jumpR (x y z : Xoshiro256AARng × Xoshiro256AARng) : Prop :=
  (x.2.Wf ∧ y.2.Wf) ∧ z = (xor4 x.1 y.1, xor4 x.2 y.2)

/-- Pack a state into one 256-bit number, component k at bits 64k..64k+63.
For well-formed states the xor is a disjoint union of bit ranges, so this
agrees with the usual radix-2^64 packing. -/
def enc (g : Xoshiro256AARng) : Nat :=
  g.s0 ^^^ (g.s1 <<< 64) ^^^ (g.s2 <<< 128) ^^^ (g.s3 <<< 192)

/-- Unpack a 256-bit number into a state. -/
def dec (v : Nat) : Xoshiro256AARng :=
  ⟨v % 2 ^ 64, (v >>> 64) % 2 ^ 64, (v >>> 128) % 2 ^ 64, (v >>> 192) % 2 ^ 64⟩

/-- Apply the GF(2)-linear map with the given list of columns (column i is the
image of basis vector 2^i) to the vector v, low bits first. -/
def applyLin (cols : List Nat) (v : Nat) : Nat :=
  match cols with
  | [] => 0
  | c :: rest => (if v % 2 = 1 then c else 0) ^^^ applyLin rest (v / 2)

/-- The jump map on 256-bit packed states. -/
def jumpEnc (v : Nat) : Nat := enc ((dec v).jump)

/-- The inverse of the jump matrix over GF(2) (column i is the preimage of
basis vector 2^i); verified below by checking that applying it to every column
of the jump matrix returns that basis vector. -/
def jumpInvCols : List Nat := [
15477028692474177346011813757990656682705496150742148639802221230037991577168,
8076496182258526015074020891584426742245902972589092572741430071932612953242,
60864467658961229860036032893418957777602038624802439025222684377755646865102,
87524416821190038707502886009526594323939273753996390547615612266850951021060,
7148186401997734942170888191583451780562979619468729308219245757476756694753,
3378218298240888154747295685077512699541229354565807474251605618408586708910,
45397602821771064522865252959926423559460740237279200851718104515448915962062,
98335601552589373166999045128988448300280935083900366131184470947317719918124,
94646090226902467920231879363152093022004024144963361885129302565636804455636,
56402094675790079621221628467608040899207245742403792965523181300672546557007,
47797434328605585670081659525936085991548225137041146160994237018687285644827,
29984113741529626598913502602594107263212345310148714393533426492028157650246,
98341639849749213211984614581069685588012930248281532203834039165832564036926,
103329997784981134656847837938703168945107726220127436154027216847362435743907,
50017755481858038073833787049215683837005050730250208752681648824723589266420,
105918364852569003981545316612751707007810698433973122169568710966359561792378,
616394106667618395517483280058821590691125533616083150952532350174437626394,
39142683863230235580432961187584244269743297899506286031838470778115123879603,
63104458420748836042475335429584887516036662681069516861084079180636681185520,
76182628342420563892800785799379524802915990369962693437421454299570513110264,
23908134756758419864305773603835416377605855641719560843262636077542662127952,
42247183487048075745264282866893854991772394814124451548249792163712933456137,
85736089172750119332092044506025273187579791527174628111884930427759585949501,
29488557614915990634442900569164605904824743661994394629859433463659525801663,
33180627370587423781447871551409056503367818600151130344850002872510166544983,
96533056762673465786192271101278147560080432800344602185655607769271644402830,
23201787450744322262807353703834126664052036464266061636531872311815691639871,
107932087340214896127797542618111596183972382409861789625455534256546259645985,
87879657335517440052697525750757576882262552813091000963615348934759071856068,
55602589703156248956173148690024458610158763325802246842575343055467860897735,
54889105424926336744506495495274355409625084276627993868036468935590406799120,
51178380054967497358321523499416056706501102983137914526073759751480580853001,
45377349728543759276918653372174033029319262903537098086968819976181561364767,
69241370814346731720559912216837319888101795743277001974684366911796380253208,
94237393103672897951549792564259039337027834857007465771745151200853314675207,
99077530699029599613642042118094909353479152556869988050880264341091577928489,
6165181344999255033697250130561792085770546874686874252143733251792421274837,
113583854116437811093621275846574436300751281892964895676328116684087829820235,
49107711385618904748685298217903567767163568433430434496236123675723417454973,
7142867371549308172178080856816786170310960687921186188480652502567884065929,
109285799832942563566413769369116305271714441642928850224120808055867698349544,
70415374712384357377616989690132628708482655176645445702787657151723784798766,
83557160039098228853522411593422197735456722757200777170403911588466709400505,
55760245325058332838457843530407297524917316962522533153382192268888664751572,
51921659823783315155943296063634916323304273397809141402358569834255419286864,
62457448077025966884676240961298990198515062863279205707659779645338911098377,
70429570459321600330984910572314057490030490564159624343709855164396703933043,
72766570075619026027039621444972985810179117879984376996459287395315378228666,
37666665319877703300643295488748635214503765133384287015787188298754575090883,
92835032922467255370720269608006608998120496458818970959398757123319665192837,
5540891116141015060482918416656957371219902787703470012902172966429901220897,
95825704823273927989972764348415063463145741927634281936853809718434765215918,
98819475331827574190996269290688228605372455829083857174422046379364593530347,
15403557612289891588681489856717000634046731296833045814752425969497876851093,
82893855376228791185941323384872219234777896350140757048665775727437457015624,
47523808116007438815647192280189790298941676673191410688952407392472824237766,
33994984535855898528167590952965545799430612942703967369667827090434999049685,
5254076071712789319485167264648173869460537049944969441110047559770400000978,
69116082166262084882363704156086764925213979497408511495634919357059062249509,
11997847471187638458405439409683730785459689727658647887474678103489693156566,
30377159457234230990663004816620184875474222738156547887028925606215955847695,
40332806178792374371236147485312798477816448901146932035378534115704743024056,
77496398844594569955603741518609682779057524542274516041434504482023076763993,
73317672267342674810450000453198008079891099287927060389768359948457117281451,
110443650663695022344398472842527442033866777951161527869410461907849330376702,
72627781070691067140615078457312721618812031130813966747909080003186067764117,
44332700597041076521666399290997226753647982609906554975286828206793310569604,
95960377664268270048761195159121498106852826064231506045013576497006142796832,
85311229683123597935993636500659589292987868460390062403666858482095294540587,
80712073809031678395383076992908129736797488596256972853399007951277804268794,
105691543536990254056866293806105571891515189145360919994262358659259867538129,
73318234807499851945265281350851127994805417098074951985869460583584701753262,
59111491687361895155261605751926942606827030841890894249395454226904504625326,
111091773662561929090581314636974064255725928286004973446075229535130933903101,
50387381065635229119024641503300638013146940135517911787921985768906300103138,
79656991387380154392020065146867949855674000103442989473562581072678146800359,
94141582718436132210795814732830466187375279095238823772301271775086220691713,
58747567678593914552229187456466902040568857767233873224243460414969310022325,
95571692033360894928356151580008178502537658560912443377767076978563337388465,
65844115130414911843399654583649239110933352877192456304247488666392154560921,
45542842522046874993099156937731302329592584915868521659421387926205824767159,
39789824968755976921534864437059963287944242819884907079321109716252452716893,
12557258914339444202872701192136247801296844595715661308529887121325638837881,
12381392525475764461319030863617977845401392173104127324837209011096538209650,
44896576043934530407255511300455178840402096914984081291076592623425843276129,
43035870597456163290311132871081726925302289841021022984386589406531489300227,
69782973235115411537146652678823903312813621673667525699750305840909462900871,
40546877168913973119663200974923147865980296972477651887955404985986463128071,
105436685250517316875415913681316002277787721309657629171777693820792388134383,
115408643728604734580493975550136865400968019157767295784065465846253459007229,
38369100751170304094071467611016930080582013257894080589782006898695890383768,
26564113484048805341962874309289185466178151752056632488234441772093874153772,
53321802454024295784789609256701647746082013638729698691054635018489320103529,
77916500534063059454407760971581725747836826304985802293924452649037603896736,
42498828140686188148009608170980962767955032601193494211835499264321017078579,
41973972644873174566939020469418166081885052903595041407199220970594973520622,
63815907670634945031408739804386908577189670199911046750642226644806808798622,
44648576768738192564375229262522996633916150323257273122053162778930691009254,
12663908524344173784323668517266982216756057289361958759515373845476394182873,
9839880284466453459173268009863291636317867689517916981774952694396853498554,
42306891650483427623510850961279378728612109819164975632377809620188392630735,
106977027711646369488390175919326295381306897169711252554989334746592817227721,
77213636419372342611910539511935898377977851430563128266997217714148713930315,
664488623667935419898084165419686164344310899152736675282514241567715430675,
30182244290400156320439923701333299274997162211963593360166498894174511330617,
55002925579958677431224681876453374673181310729424863233284736880320248678750,
87373027702256237353416403814503918679282443575104069803335854378856108412631,
99685637971037774506080548682328205174806138488279984209242386317200055847129,
2973860631532701097358794636498566720275007681161542419635508880100341687817,
106204713375207577803281035044220555964573693874456679522134280437609263236435,
20725186694940915455295675618607362030468267601380878796672053494982783948404,
104861225810802108118404952677245499119960623870669402742013584147347506374821,
66752353960646880971276259724459819999936581761800140163601203467246890092541,
4101599364820573982637854302295132419986347451006236004480026931314772151498,
14740106212702525904172338147488975401103780120708300164276342578338239034525,
109325697395864633751990217541855214623619158560827865616391236012049072404019,
84955649093890704790332875642890796150103143245492502787933984937645046452100,
54074179292550333233505451325183523173798190798261831999738814522180220811685,
72986357094053415804645298486754692455012579601585027132585628278501735832357,
29876845525941970429513649519629310709829177464492516560532920147193262804712,
115454175294974233122326368882663559725918867847393963879413431816020368944508,
87251641466147551111824203207528153300058786580827676640993537988120120181157,
111692765842367376968684755377582369778287488650913703798097250189796076001261,
89128598790024503888239422729123112826444708042220816865778715250138245410945,
18610891829846717393879320804941093688893417394351838622843844495870027030959,
89102890368670583009171132242770589811638991320615222845587731358109280218858,
83578750326908831258200185767404604230311323219322549115270464533767032688654,
70440478343937424798046485185975825275678898555625677779901208066183119484537,
37915207458777938684551869479849722270854935157471657731168837316890636915133,
100815253887691442741702611331159167262017250688240424533570088238030126616281,
66299110461876047044934973772623843658155922975099665011567851757656533644416,
73563945003564757766536880517520563009284587922478692366418509748638006512648,
80499468848195593840288681645814326767684929017553793499170891770077658513005,
18060965243572411701461034329120999022210524167043199745956865590762556373952,
6306746673216846701269923055237852167347311145327059774233195344124617368305,
104451577455260810243106347871474322738742828754240513640834620566937951718207,
65009678119454199685034203450092703383350115439919115665596498805060488038910,
29972950945570137024866019409236368302645200124520015780327991607963479696787,
56246499352493734409115241578805816292945744885605659747741265330035818712419,
35847070291764948526845478511484180104238740216334611684322897845136409104979,
98155452863304572596897086178422475121720046212659177210310298344791560080219,
101641893280585288804758188153531246316509369309076363207748092709785429287829,
16052723462662297725309533130568091559758119634688346616017625390212020139176,
55467203257666247965440070838065838439390509548150625181367393894427201065309,
104100221316348816396508652211755370670616900504219723939277291719532966578918,
97621085837695243229828690229457010050627598988854493841813140959933176656975,
68320608712198005188557561937534583419754445051618734717475186411266444647454,
36612177982378114074773841488529620047912227711611410512358020742377389245294,
82516548042219039030753217054887704379757478519770828813094946517784142128860,
58244238152556108274803163737615498053851919176602992004232778067099713203000,
76142708112496275537308477353964862664230078578829686141855759679521168944231,
51967107332093656335088698159059358112534139631691259295787208521379512191375,
6175061055157035977727181108686212463622613427409145412409444254795026811612,
74167590921671998748375508779644834566833356766948770369927914283508029107038,
102518089254355497001038531207763262230399371587415998838270819911573106170461,
79436224470463200137318240544276595434262463578934253001523970104587026658555,
20887924239794179821604206158758613214261854355862328176122208863004503970384,
1793619961611313497967647355110352725116848713304021105161716051220360845167,
15186188857171507114797959095745487511627650565930171655890631756739031845585,
42774832236202166395628064607302669634754346926581130756204210481848382621999,
42357273543499557070971267550718545225285742354871499556841956090015686271637,
94043941543185114453775343739367172787748781345199060335486414037331644565673,
6736345473932154849192525901384174273048283523457127011419986618729928491715,
81229720928420954475967752406845478723839070589985701481537863019378750969951,
90775740757766493784236814904908137627719020566925351232843732259078051753226,
112392557076403588455503564521365281411249532516644531967608130295262287485169,
40475255712142008802731886922504111543045774037223690278066159771990940673167,
44938661645272550863526925747051695547598389940843758062768558620002475343445,
5480247054738478370821932801314634012645560007788263256124881281573868506348,
83538739842432736809028099141146501301682542374861713351931295802941630111085,
4045287058028731612515771387536518130553442303669229734692362227105019053533,
74856236480120707772484186802094028481784388072626724454239987064649253378617,
80656577425167874661942409210705150607600285385779114082720392802727533712980,
69839516617294971238547689133867691416272445183917284999636788462312304169133,
46638675625964497292225820831156112512965889673119313861570175691840507665837,
22958224521021987857707116511981052234935612445249570285464968789773016434435,
102865594611651183655140434629299538450907144868673515853501090621151895525940,
61755166039310772960915271911585369819311456287991210981356393108270277880310,
31671171249605817762622560657743712590073803833581216727265188354908308922880,
111923276381128927130644156423115351102790947108993419227066855960443446271707,
95048759005178676044987147461124822761840794609225958640832429498772078121934,
105262331720300833346336439742821589583818647721656372164226643994210505134192,
51663483694938366479578743360056661093572212224713386603808863011100265658914,
37910671746174117272976624872531217815991101223525690837548367725028678781068,
30275349399325552586733832453821879208342781215564474718889333130679088208195,
98070651173346098852024312183558828004000884812637427957581632417889319935213,
30789902032816586990800055968193226511385736898130408918793840965005290030706,
66540915507949986233526706405605701101501635208569236414871650272090718786612,
52949860797587432765520348860435486026538301359570520464850549182970497997126,
80121550984922479752666148257209020307550871894638110085138831448709647747420,
80861912115297538810260583407368393865506568497109730824439175321030718479019,
49508474361566830813848182856236340793480479024421346149279798256732632060098,
115699710266723838828661092351345922785362546002798487749609618108464541445044,
79961864997267798460683263573513712372967014511731719041928660399848839569648,
43453830016691323376128787517236290811184868754901302908630552467322991596795,
8676756347339632646689626410971864730091392541210172088201261991331826939028,
52915288139778421292537153049168583723878669124205136110375449487877269031411,
88081156737912035092947529095542282422629787122460222904562387168626718096725,
75494125776031320302929373003821578268491796315457988002461922410833728426999,
56436099398472976889677121372353761110845042516119748955448431072847526836014,
10071706723849569787492615298379621015712891044597331874222923320456803492331,
52957335104094300342729856196849051679351847969626012616812157235910233629625,
94803812730546363634737558374281190068436511629682026527807786606585656210224,
49338636056859789302229959434590102738922341256971034027493314591265389208515,
71177576023532060427114915840618566355839874325564472108698707713370766526919,
68740926397074914472754131353715517761156574703071301198773556992696705272134,
106114637359748269481211096284707089631096742469995642652466937859832524302335,
8671107719566932390981571721658212766485653701070705574729462460578434204460,
75864933643951820211182130640845260817862466203822390174775748261405815050876,
70224400602919409611323354797126433842489771490619421431186927402812320795175,
65060685862424270139440024944781344649472562884080719893930679463121105689333,
30541443083077003100483746332611985891720304580969273269519285191567322575487,
24770339133723645902450620614849396393165592942962803499296687820807487029562,
69707498145394330010675133482902974670650310660521171130718959926762568111685,
11070787938839132119819716200084237241090526209597658366659207438311736981176,
2419186056107511168482972817145621771329973910986864583365010555537320124708,
34669286111320951622020070365919767171934995743066088602363660657828318564415,
46856450054094342337672010844383380362828278120757168553135987648661815458662,
92000295052825813027848237571291166569268426816740554687470473180788924634977,
21440757436565012571933181175286086893646581905094239931227180639956548178194,
88234677382149546737525196190211493516665887551295696404982452474207428881547,
3902192902995131256880076678132151567352659292061680934479907809525371668304,
96816065208790397493108065239736137952441307088660402019258501802190018870951,
35145372026424128977316852494115178796422310363291649345374706931670148146953,
105775651057547104727187038777086161703130143789215588004984404641432034755843,
46992099327047214984665197308356332317155380145521754778655715845667041658776,
39759243158880115517041957556800414153479713868926768711174869957337583581877,
30719849407505519809642478529748819292385032421024576589045841497673638669530,
96785208229306418898141195376844570049495320938828563800560605220248444778996,
75162722197888181733008008131549020165568020624635042455404236333202227679223,
4730203029356728047237612307855728499396641574522735231875052368942110901155,
58621245258148150155296007776920637152226580752099633758551557210335618287098,
108056101012006466723597768747269557563098374840931367983227945972774021664681,
106765164786857547058363647254680483797029586688992290562990618063410793097781,
72291898105231963369485526381037537784365109507348448531105115211546337363337,
4929440657374488109900287068954761661771024183666583679446487861793781666530,
33777280180472548400961719419870793056572583099712163468926989799390028199132,
108028292499159145025950229871099064623242088687434825925552142190623064038135,
68710844280950238983100028283053524757312856299965547469509876685479750866420,
78709485202797220369294981085810782773825902673481807185869295050232805932714,
41965235212785680565346403145489489930627154465185424936223744003058025405603,
81074539217585066617810230907566723203933193538002865256808093976365595379851,
108869482243108291231754861566622936936957093667212253617816371816010789487796,
106090682726517921225174062944731792031046679340570580890714440914028260724129,
32829026542976983831900200500392985396558620965536633386215800124347712396953,
97284103235175257859179817548462881286057441526652423390550448512678614514791,
94110180231028841825322959116085890516299389149771308807925755344650300099302,
34383974060122270230522576743691205928158922436926466097058100384386299072621,
64161985264437783636559761338636777851102041882954462549659524311880256453125,
33504691717137494215808247902438269842580528361648919735892796981975000680245,
70394304790580152782682263279655944952257318592385159549769667269976126895998,
25372931517518712683865978900303315624475089616832072630958884939437959948391,
82328144881385037968230692802799263081587103196040308799106282464104338245931,
107506454182387792120855579724348068108844038988561195843445115783105857071091,
110754029025796543650833999667815399551560371851016005494410738228777857697343,
53585972681974873153060460045241693165309548615950727055112725173817487711711
]

/-! ## Helper lemmas and claim theorems -/

lemma lor_one_odd (y : Nat) : (y ||| 1) % 2 = 1 := by
  have h : (y ||| 1).testBit 0 = true := by
    simp [Nat.testBit_or]
  simp only [Nat.testBit_zero, decide_eq_true_eq] at h
  exact h

set_option maxRecDepth 1000000 in
/-- C1 (counterexample): the claim reads the scenario sequentially, with jump()
called after the first two next_u64 draws; on the code that sequential scenario
does not produce the claimed post-jump outputs (the repository tests construct
a fresh generator for the jump vector). -/
theorem c1_counterexample :
    ¬ (let g0 := Xoshiro256AARng.from_seed (List.range 32)
       let p1 := g0.next_u64
       let p2 := p1.2.next_u64
       let g3 := p2.2.jump
       let p3 := g3.next_u64
       let p4 := p3.2.next_u64
       p1.1 = 13557399450712487245 ∧ p2.1 = 2706373525000986293 ∧
       p3.1 = 13745676184895872781 ∧ p4.1 = 6558318295426599200) := by
  decide

set_option maxRecDepth 1000000 in
/-- C1 (amended): seeding with bytes 0..31 gives first outputs
13557399450712487245 and 2706373525000986293; a freshly seeded generator, after
jump(), gives 13745676184895872781 and 6558318295426599200. -/
theorem c1_amended :
    (let g0 := Xoshiro256AARng.from_seed (List.range 32)
     let p1 := g0.next_u64
     let p2 := p1.2.next_u64
     p1.1 = 13557399450712487245 ∧ p2.1 = 2706373525000986293) ∧
    (let g1 := (Xoshiro256AARng.from_seed (List.range 32)).jump
     let q1 := g1.next_u64
     let q2 := q1.2.next_u64
     q1.1 = 13745676184895872781 ∧ q2.1 = 6558318295426599200) := by
  decide

set_option maxRecDepth 1000000 in
/-- C2: for every xoshiro state, next_u64 returns rotate_left(s1 * 5, 7) * 9
computed from the pre-update state with 64-bit wrapping multiplication, and
updates the state by t = s1 shl 17; s2 xor-assign s0; s3 xor-assign s1;
s1 xor-assign s2; s0 xor-assign s3 (left to right, each assignment using the
values produced by the preceding ones); s2 xor-assign t;
s3 = rotate_left(s3, 45). -/
theorem c2_next_u64_step (s0 s1 s2 s3 : Nat) :
    Xoshiro256AARng.next_u64 ⟨s0, s1, s2, s3⟩ =
      ((rotl64 ((s1 * 5) % 2 ^ 64) 7 * 9) % 2 ^ 64,
       let t := (s1 <<< 17) % 2 ^ 64
       let s2a := s2 ^^^ s0
       let s3a := s3 ^^^ s1
       let s1a := s1 ^^^ s2a
       let s0a := s0 ^^^ s3a
       ⟨s0a, s1a, s2a ^^^ t, rotl64 s3a 45⟩) := rfl

/-- C3: for every PCG state pair, next_u32 updates state to
state * 6364136223846793005 + inc with 64-bit wrap-around arithmetic and
returns the low 32 bits of ((s shr 18) xor s) shr 27 rotated right by the top
5 bits of the pre-update state s. -/
theorem c3_next_u32_step (state inc : Nat) :
    PcgRng.next_u32 ⟨state, inc⟩ =
      (rotr32 ((((state >>> 18) ^^^ state) >>> 27) % 2 ^ 32) (state >>> 59),
       ⟨(state * 6364136223846793005 + inc) % 2 ^ 64, inc⟩) := by
  have h : state >>> 59 % 4294967296 % 32 = state >>> 59 % 32 :=
    Nat.mod_mod_of_dvd _ (by norm_num)
  simp [PcgRng.next_u32, rotr32, PCG_DEFAULT_MULTIPLIER_64, h]

/-- C6: from_seed on the all-zero 32-byte seed terminates (the embedding is a
total function), substitutes the fixed non-zero constant vector, and the first
two next_u64 outputs are non-zero and distinct. -/
theorem c6_zero_seed :
    (Xoshiro256AARng.from_seed (List.replicate 32 0) =
      ⟨0x28EF3C47A831FD1C, 0x8E975A1178A024DB, 0x847707765ECFACC4, 0xB35F3DAC565901B4⟩) ∧
    ¬ (Xoshiro256AARng.from_seed (List.replicate 32 0)).AllZero ∧
    (let g := Xoshiro256AARng.from_seed (List.replicate 32 0)
     let p1 := g.next_u64
     let p2 := p1.2.next_u64
     p1.1 ≠ 0 ∧ p2.1 ≠ 0 ∧ p1.1 ≠ p2.1) := by
  decide

/-- C10: PCG next_u64 performs exactly two successive next_u32 steps and
composes the two 32-bit outputs in a fixed order (first draw low, second draw
high); xoshiro next_u32 performs exactly one next_u64 step and returns the low
32 bits of its output. -/
theorem c10_word_derivation :
    (∀ g : PcgRng,
        g.next_u64 =
          (let p1 := g.next_u32
           let p2 := p1.2.next_u32
           ((p2.1 <<< 32) ||| p1.1, p2.2)) ∧
        (g.next_u64).2 = ((g.next_u32).2.next_u32).2) ∧
    (∀ g : Xoshiro256AARng,
        (g.next_u32).1 = (g.next_u64).1 % 2 ^ 32 ∧
        (g.next_u32).2 = (g.next_u64).2) := by
  refine ⟨fun g => ⟨rfl, rfl⟩, fun g => ⟨?_, rfl⟩⟩
  show (g.next_u64).1 &&& 0xFFFFFFFF = (g.next_u64).1 % 2 ^ 32
  have := Nat.and_pow_two_sub_one_eq_mod (g.next_u64).1 32
  norm_num at this ⊢
  exact this

set_option linter.unusedVariables false in
/-- C5: PCG from_seed decodes (seed, seq) little-endian, sets
inc = (seq shl 1) or 1 (odd), and after the two warm-up steps the state equals
(inc + seed) * 6364136223846793005 + inc, wrapping at 64 bits. -/
theorem c5_from_seed (seed : List Nat) (h : seed.length = 16) :
    (PcgRng.from_seed seed).inc =
        ((read_u64_le ((seed.drop 8).take 8) <<< 1) % 2 ^ 64) ||| 1 ∧
    (PcgRng.from_seed seed).inc % 2 = 1 ∧
    (PcgRng.from_seed seed).state =
        (((((read_u64_le ((seed.drop 8).take 8) <<< 1) % 2 ^ 64) ||| 1) +
              read_u64_le (seed.take 8)) * 6364136223846793005 +
          (((read_u64_le ((seed.drop 8).take 8) <<< 1) % 2 ^ 64) ||| 1)) % 2 ^ 64 := by
  set sd := read_u64_le (seed.take 8)
  set sq := read_u64_le ((seed.drop 8).take 8)
  set inc := ((sq <<< 1) % 2 ^ 64) ||| 1 with hinc
  have hlt : inc < 2 ^ 64 :=
    Nat.or_lt_two_pow (Nat.mod_lt _ (by norm_num)) (by norm_num)
  refine ⟨rfl, lor_one_odd _, ?_⟩
  show ((((0 * PCG_DEFAULT_MULTIPLIER_64 + inc) % 2 ^ 64 + sd) % 2 ^ 64) *
          PCG_DEFAULT_MULTIPLIER_64 + inc) % 2 ^ 64 = _
  rw [Nat.zero_mul, Nat.zero_add, Nat.mod_eq_of_lt hlt, Nat.add_mod, Nat.mod_mul_mod,
    ← Nat.add_mod]
  rfl

lemma fill_mul8 {σ : Type} (next : σ → Nat × σ) :
    ∀ (n : Nat) (g : σ),
      fillBytesVia next g (8 * n) =
        (((drawU64s next g n).1.map toLeBytes8).flatten, (drawU64s next g n).2) := by
  intro n
  induction n with
  | zero => intro g; simp [fillBytesVia, drawU64s]
  | succ m ih =>
    intro g
    rw [fillBytesVia]
    have h1 : ¬ (8 * (m + 1) = 0) := by omega
    have h2 : 8 ≤ 8 * (m + 1) := by omega
    simp only [h1, if_false, h2, if_true]
    have h3 : 8 * (m + 1) - 8 = 8 * m := by omega
    rw [h3, ih]
    simp [drawU64s]

/-- C9: for both engines and every buffer of length 8 * n, fill_bytes writes
exactly the concatenated little-endian bytes of the n next_u64 draws and leaves
the generator in the state those draws produce; try_fill_bytes returns Ok of
the same result. -/
theorem c9_fill_bytes_consistency :
    (∀ (g : PcgRng) (n : Nat),
        g.fill_bytes (8 * n) =
          (((drawU64s PcgRng.next_u64 g n).1.map toLeBytes8).flatten,
           (drawU64s PcgRng.next_u64 g n).2) ∧
        @PcgRng.try_fill_bytes Unit g (8 * n) = Except.ok (g.fill_bytes (8 * n))) ∧
    (∀ (g : Xoshiro256AARng) (n : Nat),
        g.fill_bytes (8 * n) =
          (((drawU64s Xoshiro256AARng.next_u64 g n).1.map toLeBytes8).flatten,
           (drawU64s Xoshiro256AARng.next_u64 g n).2) ∧
        @Xoshiro256AARng.try_fill_bytes Unit g (8 * n) =
          Except.ok (g.fill_bytes (8 * n))) :=
  ⟨fun g n => ⟨fill_mul8 PcgRng.next_u64 n g, rfl⟩,
   fun g n => ⟨fill_mul8 Xoshiro256AARng.next_u64 n g, rfl⟩⟩

/-- C8: from_rng re-draws 32 fresh bytes while the decoded 4-word seed is
all-zero, uses the decoded words directly once non-zero (never the from_seed
preset constant), and returns any draw error unchanged to the caller. -/
theorem c8_from_rng (ε : Type) :
    (∀ (e : ε) (rest : List (Except ε (List Nat))),
        Xoshiro256AARng.from_rng (Except.error e :: rest) = Except.error e) ∧
    (∀ (bytes : List Nat) (rest : List (Except ε (List Nat))),
        ¬ (read_u64_le (bytes.take 8) = 0 ∧ read_u64_le ((bytes.drop 8).take 8) = 0 ∧
           read_u64_le ((bytes.drop 16).take 8) = 0 ∧ read_u64_le ((bytes.drop 24).take 8) = 0) →
        Xoshiro256AARng.from_rng (Except.ok bytes :: rest) =
          Except.ok (some ⟨read_u64_le (bytes.take 8), read_u64_le ((bytes.drop 8).take 8),
                           read_u64_le ((bytes.drop 16).take 8),
                           read_u64_le ((bytes.drop 24).take 8)⟩)) ∧
    (∀ (bytes : List Nat) (rest : List (Except ε (List Nat))),
        (read_u64_le (bytes.take 8) = 0 ∧ read_u64_le ((bytes.drop 8).take 8) = 0 ∧
         read_u64_le ((bytes.drop 16).take 8) = 0 ∧ read_u64_le ((bytes.drop 24).take 8) = 0) →
        Xoshiro256AARng.from_rng (Except.ok bytes :: rest) =
          Xoshiro256AARng.from_rng rest) := by
  refine ⟨fun e rest => rfl, fun bytes rest h => ?_, fun bytes rest h => ?_⟩
  · rw [Xoshiro256AARng.from_rng]
    simp only [h, if_false]
  · rw [Xoshiro256AARng.from_rng]
    simp only [h, if_true, and_self]

theorem c8_witness :
    (Xoshiro256AARng.from_rng [Except.error 7] = (Except.error 7 : Except Nat (Option Xoshiro256AARng))) ∧
    (¬ (read_u64_le ((List.range 32).take 8) = 0 ∧
        read_u64_le (((List.range 32).drop 8).take 8) = 0 ∧
        read_u64_le (((List.range 32).drop 16).take 8) = 0 ∧
        read_u64_le (((List.range 32).drop 24).take 8) = 0) ∧
      Xoshiro256AARng.from_rng [(Except.ok (List.range 32) : Except Nat (List Nat))] =
        Except.ok (some ⟨read_u64_le ((List.range 32).take 8),
                         read_u64_le (((List.range 32).drop 8).take 8),
                         read_u64_le (((List.range 32).drop 16).take 8),
                         read_u64_le (((List.range 32).drop 24).take 8)⟩)) ∧
    ((read_u64_le ((List.replicate 32 0).take 8) = 0 ∧
      read_u64_le (((List.replicate 32 0).drop 8).take 8) = 0 ∧
      read_u64_le (((List.replicate 32 0).drop 16).take 8) = 0 ∧
      read_u64_le (((List.replicate 32 0).drop 24).take 8) = 0) ∧
     Xoshiro256AARng.from_rng [(Except.ok (List.replicate 32 0) : Except Nat (List Nat))] =
       Xoshiro256AARng.from_rng ([] : List (Except Nat (List Nat)))) :=
  ⟨(c8_from_rng Nat).1 7 [],
   ⟨by decide, (c8_from_rng Nat).2.1 (List.range 32) [] (by decide)⟩,
   ⟨by decide, (c8_from_rng Nat).2.2 (List.replicate 32 0) [] (by decide)⟩⟩

lemma affApply_sq (cm cp x : Nat) :
    affApply ((cm * cm) % 2 ^ 64) ((((cm + 1) % 2 ^ 64) * cp) % 2 ^ 64) x =
      affApply cm cp (affApply cm cp x) := by
  unfold affApply
  have h1 : (cm * cm) % 2 ^ 64 * x + ((cm + 1) % 2 ^ 64 * cp) % 2 ^ 64 ≡
      cm * cm * x + (cm + 1) * cp [MOD 2 ^ 64] := by
    refine Nat.ModEq.add ?_ ?_
    · exact (Nat.mod_modEq _ _).mul_right x
    · exact (Nat.mod_modEq _ _).trans ((Nat.mod_modEq (cm + 1) (2 ^ 64)).mul_right cp)
  have h2 : cm * ((cm * x + cp) % 2 ^ 64) + cp ≡ cm * (cm * x + cp) + cp [MOD 2 ^ 64] :=
    Nat.ModEq.add_right cp ((Nat.mod_modEq _ _).mul_left cm)
  have h3 : cm * cm * x + (cm + 1) * cp = cm * (cm * x + cp) + cp := by ring
  calc ((cm * cm) % 2 ^ 64 * x + ((cm + 1) % 2 ^ 64 * cp) % 2 ^ 64) % 2 ^ 64
      = (cm * cm * x + (cm + 1) * cp) % 2 ^ 64 := h1
    _ = (cm * (cm * x + cp) + cp) % 2 ^ 64 := by rw [h3]
    _ = (cm * ((cm * x + cp) % 2 ^ 64) + cp) % 2 ^ 64 := h2.symm

lemma affApply_bit (cm cp am ap s : Nat) :
    affApply ((am * cm) % 2 ^ 64) ((ap * cm + cp) % 2 ^ 64) s =
      affApply cm cp (affApply am ap s) := by
  unfold affApply
  have h1 : (am * cm) % 2 ^ 64 * s + (ap * cm + cp) % 2 ^ 64 ≡
      am * cm * s + (ap * cm + cp) [MOD 2 ^ 64] :=
    Nat.ModEq.add ((Nat.mod_modEq _ _).mul_right s) (Nat.mod_modEq _ _)
  have h2 : cm * ((am * s + ap) % 2 ^ 64) + cp ≡ cm * (am * s + ap) + cp [MOD 2 ^ 64] :=
    Nat.ModEq.add_right cp ((Nat.mod_modEq _ _).mul_left cm)
  have h3 : am * cm * s + (ap * cm + cp) = cm * (am * s + ap) + cp := by ring
  calc ((am * cm) % 2 ^ 64 * s + (ap * cm + cp) % 2 ^ 64) % 2 ^ 64
      = (am * cm * s + (ap * cm + cp)) % 2 ^ 64 := h1
    _ = (cm * (am * s + ap) + cp) % 2 ^ 64 := by rw [h3]
    _ = (cm * ((am * s + ap) % 2 ^ 64) + cp) % 2 ^ 64 := h2.symm

lemma iterate_two_eq {α : Type} (f : α → α) : f^[2] = f ∘ f := by
  funext x
  simp [Function.iterate_succ_apply]

lemma advanceAux_apply :
    ∀ (delta cm cp am ap s : Nat),
      affApply (PcgRng.advanceAux delta cm cp am ap).1
          (PcgRng.advanceAux delta cm cp am ap).2 s =
        (affApply cm cp)^[delta] (affApply am ap s) := by
  intro delta
  induction delta using Nat.strong_induction_on with
  | _ delta ih =>
    intro cm cp am ap s
    by_cases h0 : delta = 0
    · subst h0
      rw [PcgRng.advanceAux]
      simp
    · rw [PcgRng.advanceAux]
      simp only [h0, if_false, Nat.and_one_is_mod]
      have hlt : delta / 2 < delta := Nat.div_lt_self (Nat.pos_of_ne_zero h0) (by omega)
      rw [ih (delta / 2) hlt]
      have hsq : (affApply ((cm * cm) % 2 ^ 64) ((((cm + 1) % 2 ^ 64) * cp) % 2 ^ 64)) =
          (affApply cm cp) ∘ (affApply cm cp) := by
        funext x
        exact affApply_sq cm cp x
      rw [hsq, ← iterate_two_eq, ← Function.iterate_mul]
      rcases Nat.mod_two_eq_zero_or_one delta with hb | hb
      · have hbgt : ¬ (delta % 2 > 0) := by omega
        rw [if_neg hbgt, if_neg hbgt]
        have hd : 2 * (delta / 2) = delta := by omega
        rw [hd]
      · have hbgt : delta % 2 > 0 := by omega
        rw [if_pos hbgt, if_pos hbgt]
        rw [affApply_bit, ← Function.iterate_succ_apply]
        have hd : (2 * (delta / 2)).succ = delta := by omega
        rw [hd]

lemma iterate_step_state :
    ∀ (k : Nat) (g : PcgRng), g.state < 2 ^ 64 →
      (fun x => (PcgRng.next_u32 x).2)^[k] g =
        ⟨(affApply PCG_DEFAULT_MULTIPLIER_64 g.inc)^[k] g.state, g.inc⟩ := by
  intro k
  induction k with
  | zero => intro g hg; cases g; rfl
  | succ m ih =>
    intro g hg
    rw [Function.iterate_succ_apply]
    have hstep : (PcgRng.next_u32 g).2 =
        (⟨(g.state * PCG_DEFAULT_MULTIPLIER_64 + g.inc) % 2 ^ 64, g.inc⟩ : PcgRng) := rfl
    rw [hstep, ih _ (Nat.mod_lt _ (by norm_num))]
    simp only [Function.iterate_succ_apply]
    have : affApply PCG_DEFAULT_MULTIPLIER_64 g.inc g.state =
        (g.state * PCG_DEFAULT_MULTIPLIER_64 + g.inc) % 2 ^ 64 := by
      unfold affApply; rw [Nat.mul_comm]
    rw [← this]

/-- C4: advance(delta) puts the generator in exactly the state reached by
applying the one-step transition delta times; in particular advance(0) is a
no-op.  The equality holds for every natural delta, hence for the whole 64-bit
range of the Rust argument. -/
theorem c4_advance_iterate (g : PcgRng) (delta : Nat) (h : g.state < 2 ^ 64) :
    g.advance delta = (fun x => (PcgRng.next_u32 x).2)^[delta] g ∧ g.advance 0 = g := by
  have main : ∀ d : Nat, g.advance d = (fun x => (PcgRng.next_u32 x).2)^[d] g := by
    intro d
    rw [iterate_step_state d g h]
    show (⟨_, g.inc⟩ : PcgRng) = _
    have ha : ((PcgRng.advanceAux d PCG_DEFAULT_MULTIPLIER_64 g.inc 1 0).1 * g.state +
          (PcgRng.advanceAux d PCG_DEFAULT_MULTIPLIER_64 g.inc 1 0).2) % 2 ^ 64 =
        affApply (PcgRng.advanceAux d PCG_DEFAULT_MULTIPLIER_64 g.inc 1 0).1
          (PcgRng.advanceAux d PCG_DEFAULT_MULTIPLIER_64 g.inc 1 0).2 g.state := rfl
    show (⟨((PcgRng.advanceAux d PCG_DEFAULT_MULTIPLIER_64 g.inc 1 0).1 * g.state +
          (PcgRng.advanceAux d PCG_DEFAULT_MULTIPLIER_64 g.inc 1 0).2) % 2 ^ 64, g.inc⟩ : PcgRng) = _
    rw [ha, advanceAux_apply]
    have h10 : affApply 1 0 g.state = g.state := by
      unfold affApply
      rw [Nat.one_mul, Nat.add_zero, Nat.mod_eq_of_lt h]
    rw [h10]
  refine ⟨main delta, ?_⟩
  rw [main 0]
  rfl

theorem c4_witness :
    (5 : Nat) < 2 ^ 64 ∧
    ((PcgRng.advance ⟨5, 7⟩ 1000 = (fun x => (PcgRng.next_u32 x).2)^[1000] ⟨5, 7⟩) ∧
     PcgRng.advance ⟨5, 7⟩ 0 = ⟨5, 7⟩) :=
  ⟨by norm_num, c4_advance_iterate ⟨5, 7⟩ 1000 (by norm_num)⟩

lemma xor_mod_two_pow (a b n : Nat) : (a ^^^ b) % 2 ^ n = a % 2 ^ n ^^^ b % 2 ^ n := by
  apply Nat.eq_of_testBit_eq
  intro i
  simp [Nat.testBit_mod_two_pow, Nat.testBit_xor, Bool.and_xor_distrib_left]

lemma xor_shiftRight (a b n : Nat) : (a ^^^ b) >>> n = a >>> n ^^^ b >>> n := by
  apply Nat.eq_of_testBit_eq
  intro i
  simp [Nat.testBit_shiftRight, Nat.testBit_xor]

lemma xor_shiftLeft (a b n : Nat) : (a ^^^ b) <<< n = a <<< n ^^^ b <<< n := by
  apply Nat.eq_of_testBit_eq
  intro i
  simp [Nat.testBit_shiftLeft, Nat.testBit_xor, Bool.and_xor_distrib_left]

lemma lor_eq_zero {a b : Nat} (h : a ||| b = 0) : a = 0 ∧ b = 0 := by
  have ht : ∀ i, a.testBit i = false ∧ b.testBit i = false := by
    intro i
    have hi : (a ||| b).testBit i = false := by rw [h]; simp
    simp only [Nat.testBit_or, Bool.or_eq_false_iff] at hi
    exact hi
  refine ⟨Nat.eq_of_testBit_eq fun i => ?_, Nat.eq_of_testBit_eq fun i => ?_⟩
  · simp [(ht i).1]
  · simp [(ht i).2]

lemma lor_eq_xor {a b : Nat} (h : a &&& b = 0) : a ||| b = a ^^^ b := by
  apply Nat.eq_of_testBit_eq
  intro i
  have hi : a.testBit i = false ∨ b.testBit i = false := by
    have h2 : (a &&& b).testBit i = false := by rw [h]; simp
    simp only [Nat.testBit_and, Bool.and_eq_false_iff] at h2
    exact h2
  rcases hi with hx | hx <;> simp [Nat.testBit_or, Nat.testBit_xor, hx]

lemma rotl45_zero {x : Nat} (h : rotl64 x 45 = 0) : x = 0 := by
  unfold rotl64 at h
  obtain ⟨h1, h2⟩ := lor_eq_zero h
  have hlt : x < 2 ^ 19 := by
    rw [Nat.shiftRight_eq_div_pow] at h2
    omega
  have hdvd : 2 ^ 64 ∣ x * 2 ^ 45 := by
    rw [Nat.shiftLeft_eq] at h1
    exact Nat.dvd_of_mod_eq_zero h1
  have hdvd2 : (2 : Nat) ^ 19 ∣ x := by
    have he : (2 : Nat) ^ 64 = 2 ^ 19 * 2 ^ 45 := by norm_num
    rw [he] at hdvd
    exact (Nat.mul_dvd_mul_iff_right (show (0 : Nat) < 2 ^ 45 by norm_num)).1 hdvd
  exact Nat.eq_zero_of_dvd_of_lt hdvd2 hlt

lemma shl17_fixpoint {s : Nat} (h : s = (s <<< 17) % 2 ^ 64) : s = 0 := by
  rw [Nat.shiftLeft_eq] at h
  have h2 : s = (s * 2 ^ 34) % 2 ^ 64 := by
    rw [show (34 : Nat) = 17 + 17 from rfl, pow_add, ← Nat.mul_assoc, ← Nat.mod_mul_mod, ← h]
    exact h
  have h4 : s = (s * 2 ^ 68) % 2 ^ 64 := by
    rw [show (68 : Nat) = 34 + 34 from rfl, pow_add, ← Nat.mul_assoc, ← Nat.mod_mul_mod, ← h2]
    exact h2
  rw [show (68 : Nat) = 4 + 64 from rfl, pow_add, ← Nat.mul_assoc, Nat.mul_mod_left] at h4
  exact h4

lemma allZero_iff (g : Xoshiro256AARng) : g.AllZero ↔ g = zero4 := by
  unfold Xoshiro256AARng.AllZero zero4
  constructor
  · rintro ⟨h0, h1, h2, h3⟩
    ext <;> assumption
  · rintro rfl
    exact ⟨rfl, rfl, rfl, rfl⟩

lemma step_allZero {g : Xoshiro256AARng} (h : ((g.next_u64).2).AllZero) : g.AllZero := by
  obtain ⟨h0, h1, h2, h3⟩ := h
  simp only [Xoshiro256AARng.next_u64] at h0 h1 h2 h3
  have e31 : g.s3 = g.s1 := Nat.xor_eq_zero.1 (rotl45_zero h3)
  have e0 : g.s0 = 0 := by
    rw [e31, Nat.xor_self, Nat.xor_zero] at h0
    exact h0
  have e21 : g.s1 = g.s2 := by
    rw [e0, Nat.xor_zero] at h1
    exact Nat.xor_eq_zero.1 h1
  have e2t : g.s2 = (g.s1 <<< 17) % 2 ^ 64 := by
    rw [e0, Nat.xor_zero] at h2
    exact Nat.xor_eq_zero.1 h2
  have e1 : g.s1 = 0 := shl17_fixpoint (by rw [← e21] at e2t; exact e2t)
  exact ⟨e0, e1, by rw [← e21, e1], by rw [e31, e1]⟩

lemma rotl45_lt {z : Nat} (hz : z < 2 ^ 64) : rotl64 z 45 < 2 ^ 64 := by
  unfold rotl64
  apply Nat.or_lt_two_pow
  · exact Nat.mod_lt _ (by norm_num)
  · rw [Nat.shiftRight_eq_div_pow]
    omega

lemma step_wf {g : Xoshiro256AARng} (h : g.Wf) : ((g.next_u64).2).Wf := by
  obtain ⟨h0, h1, h2, h3⟩ := h
  refine ⟨?_, ?_, ?_, ?_⟩
  · exact Nat.xor_lt_two_pow h0 (Nat.xor_lt_two_pow h3 h1)
  · exact Nat.xor_lt_two_pow h1 (Nat.xor_lt_two_pow h2 h0)
  · exact Nat.xor_lt_two_pow (Nat.xor_lt_two_pow h2 h0) (Nat.mod_lt _ (by norm_num))
  · exact rotl45_lt (Nat.xor_lt_two_pow h3 h1)

lemma rotl45_eq_xor {z : Nat} (hz : z < 2 ^ 64) :
    rotl64 z 45 = ((z <<< 45) % 2 ^ 64) ^^^ (z >>> 19) := by
  unfold rotl64
  apply lor_eq_xor
  apply Nat.eq_of_testBit_eq
  intro i
  simp only [Nat.testBit_and, Nat.testBit_mod_two_pow, Nat.testBit_shiftLeft,
    Nat.testBit_shiftRight, Nat.zero_testBit]
  by_cases h45 : 45 ≤ i
  · have hbig : z.testBit (19 + i) = false :=
      Nat.testBit_lt_two_pow (lt_of_lt_of_le hz (by
        apply Nat.pow_le_pow_right (by norm_num)
        omega))
    simp [hbig]
  · simp [h45]

lemma rotl45_xor {x y : Nat} (hx : x < 2 ^ 64) (hy : y < 2 ^ 64) :
    rotl64 (x ^^^ y) 45 = rotl64 x 45 ^^^ rotl64 y 45 := by
  rw [rotl45_eq_xor (Nat.xor_lt_two_pow hx hy), rotl45_eq_xor hx, rotl45_eq_xor hy,
    xor_shiftLeft, xor_mod_two_pow, xor_shiftRight]
  have hv : ∀ a b c d : Nat, (a ^^^ b) ^^^ (c ^^^ d) = (a ^^^ c) ^^^ (b ^^^ d) := by
    intro a b c d
    rw [Nat.xor_assoc, Nat.xor_assoc, ← Nat.xor_assoc b c d, Nat.xor_comm b c,
      Nat.xor_assoc c b d]
  exact hv _ _ _ _

lemma step_xor4 {a b : Xoshiro256AARng} (ha : a.Wf) (hb : b.Wf) :
    ((xor4 a b).next_u64).2 = xor4 ((a.next_u64).2) ((b.next_u64).2) := by
  obtain ⟨ha0, ha1, ha2, ha3⟩ := ha
  obtain ⟨hb0, hb1, hb2, hb3⟩ := hb
  have hv : ∀ x y z w : Nat, (x ^^^ y) ^^^ (z ^^^ w) = (x ^^^ z) ^^^ (y ^^^ w) := by
    intro x y z w
    rw [Nat.xor_assoc, Nat.xor_assoc, ← Nat.xor_assoc y z w, Nat.xor_comm y z,
      Nat.xor_assoc z y w]
  simp only [Xoshiro256AARng.next_u64, xor4]
  ext
  · show (a.s0 ^^^ b.s0) ^^^ ((a.s3 ^^^ b.s3) ^^^ (a.s1 ^^^ b.s1)) = _
    rw [hv a.s3 b.s3 a.s1 b.s1, hv]
  · show (a.s1 ^^^ b.s1) ^^^ ((a.s2 ^^^ b.s2) ^^^ (a.s0 ^^^ b.s0)) = _
    rw [hv a.s2 b.s2 a.s0 b.s0, hv]
  · show ((a.s2 ^^^ b.s2) ^^^ (a.s0 ^^^ b.s0)) ^^^ (((a.s1 ^^^ b.s1) <<< 17) % 2 ^ 64) = _
    rw [hv a.s2 b.s2 a.s0 b.s0, xor_shiftLeft, xor_mod_two_pow, hv]
  · show rotl64 ((a.s3 ^^^ b.s3) ^^^ (a.s1 ^^^ b.s1)) 45 = _
    rw [hv a.s3 b.s3 a.s1 b.s1,
      rotl45_xor (Nat.xor_lt_two_pow ha3 ha1) (Nat.xor_lt_two_pow hb3 hb1)]

lemma foldl_inv {α β : Type} (P : β → Prop) (f : β → α → β)
    (hstep : ∀ (b : β) (a : α), P b → P (f b a)) :
    ∀ (l : List α) (b : β), P b → P (l.foldl f b) := by
  intro l
  induction l with
  | nil => intro b hb; exact hb
  | cons x xs ih =>
    intro b hb
    exact ih _ (hstep b x hb)

lemma foldl_rel3 {α β : Type} (R : β → β → β → Prop) (f : β → α → β)
    (hstep : ∀ (a : α) (x y z : β), R x y z → R (f x a) (f y a) (f z a)) :
    ∀ (l : List α) (x y z : β), R x y z →
      R (l.foldl f x) (l.foldl f y) (l.foldl f z) := by
  intro l
  induction l with
  | nil => intro x y z h; exact h
  | cons u us ih =>
    intro x y z h
    exact ih _ _ _ (hstep u x y z h)

lemma xor4_wf {a b : Xoshiro256AARng} (ha : a.Wf) (hb : b.Wf) : (xor4 a b).Wf :=
  ⟨Nat.xor_lt_two_pow ha.1 hb.1, Nat.xor_lt_two_pow ha.2.1 hb.2.1,
   Nat.xor_lt_two_pow ha.2.2.1 hb.2.2.1, Nat.xor_lt_two_pow ha.2.2.2 hb.2.2.2⟩

lemma xor4_comm4 (x y z w : Xoshiro256AARng) :
    xor4 (xor4 x y) (xor4 z w) = xor4 (xor4 x z) (xor4 y w) := by
  have hv : ∀ a b c d : Nat, (a ^^^ b) ^^^ (c ^^^ d) = (a ^^^ c) ^^^ (b ^^^ d) := by
    intro a b c d
    rw [Nat.xor_assoc, Nat.xor_assoc, ← Nat.xor_assoc b c d, Nat.xor_comm b c,
      Nat.xor_assoc c b d]
  simp only [xor4]
  ext <;> apply hv

lemma jumpBody_rel (i b : Nat) (x y z : Xoshiro256AARng × Xoshiro256AARng)
    (h : jumpR x y z) : jumpR (jumpBody i x b) (jumpBody i y b) (jumpBody i z b) := by
  obtain ⟨⟨hwx, hwy⟩, hz⟩ := h
  refine ⟨⟨step_wf hwx, step_wf hwy⟩, ?_⟩
  unfold jumpBody Xoshiro256AARng.step
  rw [hz]
  show (_, ((xor4 x.2 y.2).next_u64).2) = _
  rw [step_xor4 hwx hwy]
  by_cases hc : i &&& (1 <<< b) > 0
  · simp only [hc, if_true]
    rw [xor4_comm4]
  · simp only [hc, if_false]

lemma jumpWord_rel (i : Nat) (x y z : Xoshiro256AARng × Xoshiro256AARng)
    (h : jumpR x y z) : jumpR (jumpWord x i) (jumpWord y i) (jumpWord z i) :=
  foldl_rel3 jumpR (jumpBody i) (fun b x y z h => jumpBody_rel i b x y z h)
    (List.range 64) x y z h

lemma jump_xor4 {a b : Xoshiro256AARng} (ha : a.Wf) (hb : b.Wf) :
    (xor4 a b).jump = xor4 a.jump b.jump := by
  unfold Xoshiro256AARng.jump
  have key := foldl_rel3 jumpR jumpWord (fun i x y z h => jumpWord_rel i x y z h)
    JUMP (zero4, a) (zero4, b) (zero4, xor4 a b)
    (by
      refine ⟨⟨ha, hb⟩, ?_⟩
      show (zero4, xor4 a b) = (xor4 zero4 zero4, xor4 a b)
      have hzz : xor4 zero4 zero4 = zero4 := by decide
      rw [hzz])
  rw [key.2]

lemma step_zero : (zero4.next_u64).2 = zero4 := by decide

lemma jump_zero : zero4.jump = zero4 := by
  unfold Xoshiro256AARng.jump
  have key := foldl_inv (fun (p : Xoshiro256AARng × Xoshiro256AARng) => p = (zero4, zero4))
    jumpWord
    (by
      intro p i hp
      refine foldl_inv (fun q => q = (zero4, zero4)) (jumpBody i) ?_ (List.range 64) p hp
      intro q c hq
      rw [hq]
      unfold jumpBody
      show (if i &&& (1 <<< c) > 0 then xor4 zero4 zero4 else zero4, zero4.step) = _
      have hzz : xor4 zero4 zero4 = zero4 := by decide
      have hsz : zero4.step = zero4 := step_zero
      rw [hzz, hsz, ite_self])
    JUMP (zero4, zero4) rfl
  rw [key]

lemma jump_wf {g : Xoshiro256AARng} (h : g.Wf) : (g.jump).Wf := by
  unfold Xoshiro256AARng.jump
  have key := foldl_inv
    (fun (p : Xoshiro256AARng × Xoshiro256AARng) => p.1.Wf ∧ p.2.Wf) jumpWord
    (by
      intro p i hp
      refine foldl_inv (fun (q : Xoshiro256AARng × Xoshiro256AARng) => q.1.Wf ∧ q.2.Wf)
        (jumpBody i) ?_ (List.range 64) p hp
      intro q c hq
      refine ⟨?_, step_wf hq.2⟩
      unfold jumpBody
      by_cases hc : i &&& (1 <<< c) > 0
      · simp only [hc, if_true]
        exact xor4_wf hq.1 hq.2
      · simp only [hc, if_false]
        exact hq.1)
    JUMP (zero4, g) ⟨(by simp [Xoshiro256AARng.Wf, zero4] : (zero4 : Xoshiro256AARng).Wf), h⟩
  exact key.1

lemma dec_wf (v : Nat) : (dec v).Wf :=
  ⟨Nat.mod_lt _ (by norm_num), Nat.mod_lt _ (by norm_num),
   Nat.mod_lt _ (by norm_num), Nat.mod_lt _ (by norm_num)⟩

lemma dec_xor (a b : Nat) : dec (a ^^^ b) = xor4 (dec a) (dec b) := by
  unfold dec xor4
  ext <;> simp only [xor_shiftRight, xor_mod_two_pow]

lemma shl_shr_cancel (x k : Nat) : (x <<< k) >>> k = x := by
  rw [Nat.shiftLeft_eq, Nat.shiftRight_eq_div_pow]
  exact Nat.mul_div_cancel x (by positivity)

lemma shr_eq_zero_of_lt {x n : Nat} (h : x < 2 ^ n) : x >>> n = 0 := by
  rw [Nat.shiftRight_eq_div_pow]
  exact Nat.div_eq_of_lt h

lemma xor_left_comm (a b c : Nat) : a ^^^ (b ^^^ c) = b ^^^ (a ^^^ c) := by
  rw [← Nat.xor_assoc, Nat.xor_comm a b, Nat.xor_assoc]

lemma and_mul_pow_eq_zero {b : Nat} (i a : Nat) (hb : b < 2 ^ i) :
    (2 ^ i * a) &&& b = 0 := by
  apply Nat.eq_of_testBit_eq
  intro j
  simp only [Nat.testBit_and, Nat.testBit_mul_pow_two, Nat.zero_testBit]
  by_cases hj : i ≤ j
  · have hbj : b.testBit j = false :=
      Nat.testBit_lt_two_pow (lt_of_lt_of_le hb (Nat.pow_le_pow_right (by norm_num) hj))
    simp [hbj]
  · simp [ge_iff_le, hj]

lemma add_shl_eq_xor {b : Nat} (i a : Nat) (hb : b < 2 ^ i) :
    (2 ^ i * a) ^^^ b = 2 ^ i * a + b := by
  rw [← lor_eq_xor (and_mul_pow_eq_zero i a hb), ← Nat.mul_add_lt_is_or hb a]

lemma enc_sum {g : Xoshiro256AARng} (h : g.Wf) :
    enc g = g.s0 + 2 ^ 64 * g.s1 + 2 ^ 128 * g.s2 + 2 ^ 192 * g.s3 := by
  obtain ⟨h0, h1, h2, h3⟩ := h
  unfold enc
  have e1 : g.s1 <<< 64 = 2 ^ 64 * g.s1 := by rw [Nat.shiftLeft_eq, Nat.mul_comm]
  have e2 : g.s2 <<< 128 = 2 ^ 128 * g.s2 := by rw [Nat.shiftLeft_eq, Nat.mul_comm]
  have e3 : g.s3 <<< 192 = 2 ^ 192 * g.s3 := by rw [Nat.shiftLeft_eq, Nat.mul_comm]
  rw [e1, e2, e3, Nat.xor_comm g.s0, add_shl_eq_xor 64 g.s1 h0,
    Nat.xor_comm _ (2 ^ 128 * g.s2), add_shl_eq_xor 128 g.s2 (by omega),
    Nat.xor_comm _ (2 ^ 192 * g.s3), add_shl_eq_xor 192 g.s3 (by omega)]
  omega

lemma dec_enc {g : Xoshiro256AARng} (h : g.Wf) : dec (enc g) = g := by
  have hs := enc_sum h
  obtain ⟨h0, h1, h2, h3⟩ := h
  unfold dec
  ext
  · show (enc g) % 2 ^ 64 = g.s0
    rw [hs]
    omega
  · show ((enc g) >>> 64) % 2 ^ 64 = g.s1
    rw [hs, Nat.shiftRight_eq_div_pow]
    omega
  · show ((enc g) >>> 128) % 2 ^ 64 = g.s2
    rw [hs, Nat.shiftRight_eq_div_pow]
    omega
  · show ((enc g) >>> 192) % 2 ^ 64 = g.s3
    rw [hs, Nat.shiftRight_eq_div_pow]
    omega

lemma enc_xor (a b : Xoshiro256AARng) : enc (xor4 a b) = enc a ^^^ enc b := by
  unfold enc xor4
  show (a.s0 ^^^ b.s0) ^^^ ((a.s1 ^^^ b.s1) <<< 64) ^^^ ((a.s2 ^^^ b.s2) <<< 128) ^^^
      ((a.s3 ^^^ b.s3) <<< 192) = _
  rw [xor_shiftLeft, xor_shiftLeft, xor_shiftLeft]
  simp only [Nat.xor_assoc, Nat.xor_comm, xor_left_comm]

lemma enc_zero : enc zero4 = 0 := by decide

lemma enc_lt {g : Xoshiro256AARng} (h : g.Wf) : enc g < 2 ^ 256 := by
  have hs := enc_sum h
  obtain ⟨h0, h1, h2, h3⟩ := h
  rw [hs]
  omega

lemma applyLin_zero (cols : List Nat) : applyLin cols 0 = 0 := by
  induction cols with
  | nil => rfl
  | cons c rest ih => simp [applyLin, ih]

lemma xor_cancel_left (a b : Nat) : a ^^^ (a ^^^ b) = b := by
  rw [← Nat.xor_assoc, Nat.xor_self, Nat.zero_xor]

lemma xor_div_two (a b : Nat) : (a ^^^ b) / 2 = a / 2 ^^^ b / 2 := by
  have h := xor_shiftRight a b 1
  simpa [Nat.shiftRight_eq_div_pow] using h

lemma xor_mod_two (a b : Nat) : (a ^^^ b) % 2 = a % 2 ^^^ b % 2 := by
  have h := xor_mod_two_pow a b 1
  simpa using h

lemma applyLin_xor (cols : List Nat) :
    ∀ a b, applyLin cols (a ^^^ b) = applyLin cols a ^^^ applyLin cols b := by
  induction cols with
  | nil => intro a b; simp [applyLin]
  | cons c rest ih =>
    intro a b
    rw [applyLin, applyLin, applyLin, xor_div_two, ih]
    have hm : (a ^^^ b) % 2 = a % 2 ^^^ b % 2 := xor_mod_two a b
    rcases Nat.mod_two_eq_zero_or_one a with ha | ha <;>
      rcases Nat.mod_two_eq_zero_or_one b with hb | hb <;>
      simp [ha, hb, hm, Nat.xor_assoc, Nat.xor_comm, xor_left_comm, xor_cancel_left]

lemma two_mul_xor_one (q : Nat) : 2 * q ^^^ 1 = 2 * q + 1 := by
  have h := add_shl_eq_xor 1 q (show 1 < 2 ^ 1 by norm_num)
  norm_num at h
  exact h

lemma split_bit (v : Nat) : 2 * (v / 2) ^^^ v % 2 = v := by
  rcases Nat.mod_two_eq_zero_or_one v with h | h
  · rw [h, Nat.xor_zero]
    omega
  · rw [h, two_mul_xor_one]
    omega

lemma linF :
    ∀ (n : Nat) (f : Nat → Nat),
      (∀ a b, f (a ^^^ b) = f a ^^^ f b) → f 0 = 0 →
      ∀ v, v < 2 ^ n →
        f v = applyLin ((List.range n).map (fun i => f (1 <<< i))) v := by
  intro n
  induction n with
  | zero =>
    intro f hf h0 v hv
    have hv0 : v = 0 := by omega
    subst hv0
    simp [applyLin, h0]
  | succ m ih =>
    intro f hf h0 v hv
    rw [List.range_succ_eq_map, List.map_cons, List.map_map, applyLin]
    have hg : ∀ a b : Nat, f (2 * (a ^^^ b)) = f (2 * a) ^^^ f (2 * b) := by
      intro a b
      have h2 : 2 * (a ^^^ b) = 2 * a ^^^ 2 * b := by
        have hs := xor_shiftLeft a b 1
        rw [Nat.shiftLeft_eq, Nat.shiftLeft_eq, Nat.shiftLeft_eq] at hs
        simpa [Nat.mul_comm] using hs
      rw [h2, hf]
    have hg0 : f (2 * 0) = 0 := by simpa using h0
    have hmap : List.map ((fun i => f (1 <<< i)) ∘ Nat.succ) (List.range m) =
        List.map (fun i => f (2 * (1 <<< i))) (List.range m) := by
      apply List.map_congr_left
      intro i _
      show f (1 <<< (i + 1)) = f (2 * (1 <<< i))
      congr 1
      rw [Nat.shiftLeft_eq, Nat.shiftLeft_eq, pow_succ]
      ring
    rw [hmap, ← ih (fun x => f (2 * x)) hg hg0 (v / 2) (by omega)]
    conv_lhs => rw [← split_bit v]
    rw [hf]
    rcases Nat.mod_two_eq_zero_or_one v with hv2 | hv2
    · rw [hv2, h0, Nat.xor_zero]
      simp [hv2]
    · rw [hv2]
      simp [hv2]
      rw [Nat.xor_comm]

lemma jumpEnc_xor (a b : Nat) : jumpEnc (a ^^^ b) = jumpEnc a ^^^ jumpEnc b := by
  unfold jumpEnc
  rw [dec_xor, jump_xor4 (dec_wf a) (dec_wf b), enc_xor]

lemma jumpEnc_zero : jumpEnc 0 = 0 := by
  unfold jumpEnc
  have hd : dec 0 = zero4 := by decide
  rw [hd, jump_zero, enc_zero]

set_option maxRecDepth 1000000 in
set_option maxHeartbeats 40000000 in
lemma jump_col_check_0 :
    ∀ i, i < 16 * 1 → 16 * 0 ≤ i →
      applyLin jumpInvCols (jumpEnc (1 <<< i)) = 1 <<< i := by
  decide

set_option maxRecDepth 1000000 in
set_option maxHeartbeats 40000000 in
lemma jump_col_check_1 :
    ∀ i, i < 16 * 2 → 16 * 1 ≤ i →
      applyLin jumpInvCols (jumpEnc (1 <<< i)) = 1 <<< i := by
  decide

set_option maxRecDepth 1000000 in
set_option maxHeartbeats 40000000 in
lemma jump_col_check_2 :
    ∀ i, i < 16 * 3 → 16 * 2 ≤ i →
      applyLin jumpInvCols (jumpEnc (1 <<< i)) = 1 <<< i := by
  decide

set_option maxRecDepth 1000000 in
set_option maxHeartbeats 40000000 in
lemma jump_col_check_3 :
    ∀ i, i < 16 * 4 → 16 * 3 ≤ i →
      applyLin jumpInvCols (jumpEnc (1 <<< i)) = 1 <<< i := by
  decide

set_option maxRecDepth 1000000 in
set_option maxHeartbeats 40000000 in
lemma jump_col_check_4 :
    ∀ i, i < 16 * 5 → 16 * 4 ≤ i →
      applyLin jumpInvCols (jumpEnc (1 <<< i)) = 1 <<< i := by
  decide

set_option maxRecDepth 1000000 in
set_option maxHeartbeats 40000000 in
lemma jump_col_check_5 :
    ∀ i, i < 16 * 6 → 16 * 5 ≤ i →
      applyLin jumpInvCols (jumpEnc (1 <<< i)) = 1 <<< i := by
  decide

set_option maxRecDepth 1000000 in
set_option maxHeartbeats 40000000 in
lemma jump_col_check_6 :
    ∀ i, i < 16 * 7 → 16 * 6 ≤ i →
      applyLin jumpInvCols (jumpEnc (1 <<< i)) = 1 <<< i := by
  decide

set_option maxRecDepth 1000000 in
set_option maxHeartbeats 40000000 in
lemma jump_col_check_7 :
    ∀ i, i < 16 * 8 → 16 * 7 ≤ i →
      applyLin jumpInvCols (jumpEnc (1 <<< i)) = 1 <<< i := by
  decide

set_option maxRecDepth 1000000 in
set_option maxHeartbeats 40000000 in
lemma jump_col_check_8 :
    ∀ i, i < 16 * 9 → 16 * 8 ≤ i →
      applyLin jumpInvCols (jumpEnc (1 <<< i)) = 1 <<< i := by
  decide

set_option maxRecDepth 1000000 in
set_option maxHeartbeats 40000000 in
lemma jump_col_check_9 :
    ∀ i, i < 16 * 10 → 16 * 9 ≤ i →
      applyLin jumpInvCols (jumpEnc (1 <<< i)) = 1 <<< i := by
  decide

set_option maxRecDepth 1000000 in
set_option maxHeartbeats 40000000 in
lemma jump_col_check_10 :
    ∀ i, i < 16 * 11 → 16 * 10 ≤ i →
      applyLin jumpInvCols (jumpEnc (1 <<< i)) = 1 <<< i := by
  decide

set_option maxRecDepth 1000000 in
set_option maxHeartbeats 40000000 in
lemma jump_col_check_11 :
    ∀ i, i < 16 * 12 → 16 * 11 ≤ i →
      applyLin jumpInvCols (jumpEnc (1 <<< i)) = 1 <<< i := by
  decide

set_option maxRecDepth 1000000 in
set_option maxHeartbeats 40000000 in
lemma jump_col_check_12 :
    ∀ i, i < 16 * 13 → 16 * 12 ≤ i →
      applyLin jumpInvCols (jumpEnc (1 <<< i)) = 1 <<< i := by
  decide

set_option maxRecDepth 1000000 in
set_option maxHeartbeats 40000000 in
lemma jump_col_check_13 :
    ∀ i, i < 16 * 14 → 16 * 13 ≤ i →
      applyLin jumpInvCols (jumpEnc (1 <<< i)) = 1 <<< i := by
  decide

set_option maxRecDepth 1000000 in
set_option maxHeartbeats 40000000 in
lemma jump_col_check_14 :
    ∀ i, i < 16 * 15 → 16 * 14 ≤ i →
      applyLin jumpInvCols (jumpEnc (1 <<< i)) = 1 <<< i := by
  decide

set_option maxRecDepth 1000000 in
set_option maxHeartbeats 40000000 in
lemma jump_col_check_15 :
    ∀ i, i < 16 * 16 → 16 * 15 ≤ i →
      applyLin jumpInvCols (jumpEnc (1 <<< i)) = 1 <<< i := by
  decide

/-- Column i of the composite map (inverse matrix applied after jump) is the
basis vector 2^i, for every i below 256. -/
lemma jump_col_check :
    ∀ i, i < 256 → applyLin jumpInvCols (jumpEnc (1 <<< i)) = 1 <<< i := by
  intro i hi
  by_cases h0 : i < 16 * 1
  · exact jump_col_check_0 i h0 (by omega)
  by_cases h1 : i < 16 * 2
  · exact jump_col_check_1 i h1 (by omega)
  by_cases h2 : i < 16 * 3
  · exact jump_col_check_2 i h2 (by omega)
  by_cases h3 : i < 16 * 4
  · exact jump_col_check_3 i h3 (by omega)
  by_cases h4 : i < 16 * 5
  · exact jump_col_check_4 i h4 (by omega)
  by_cases h5 : i < 16 * 6
  · exact jump_col_check_5 i h5 (by omega)
  by_cases h6 : i < 16 * 7
  · exact jump_col_check_6 i h6 (by omega)
  by_cases h7 : i < 16 * 8
  · exact jump_col_check_7 i h7 (by omega)
  by_cases h8 : i < 16 * 9
  · exact jump_col_check_8 i h8 (by omega)
  by_cases h9 : i < 16 * 10
  · exact jump_col_check_9 i h9 (by omega)
  by_cases h10 : i < 16 * 11
  · exact jump_col_check_10 i h10 (by omega)
  by_cases h11 : i < 16 * 12
  · exact jump_col_check_11 i h11 (by omega)
  by_cases h12 : i < 16 * 13
  · exact jump_col_check_12 i h12 (by omega)
  by_cases h13 : i < 16 * 14
  · exact jump_col_check_13 i h13 (by omega)
  by_cases h14 : i < 16 * 15
  · exact jump_col_check_14 i h14 (by omega)
  exact jump_col_check_15 i (by omega) (by omega)

lemma inv_comp {v : Nat} (hv : v < 2 ^ 256) : applyLin jumpInvCols (jumpEnc v) = v := by
  have hCx : ∀ a b : Nat,
      applyLin jumpInvCols (jumpEnc (a ^^^ b)) =
        applyLin jumpInvCols (jumpEnc a) ^^^ applyLin jumpInvCols (jumpEnc b) := by
    intro a b
    rw [jumpEnc_xor, applyLin_xor]
  have hC0 : applyLin jumpInvCols (jumpEnc 0) = 0 := by
    rw [jumpEnc_zero, applyLin_zero]
  have h1 := linF 256 (fun x => applyLin jumpInvCols (jumpEnc x)) hCx hC0 v hv
  have h2 := linF 256 (fun x => x) (fun a b => rfl) rfl v hv
  have hmap : (List.range 256).map (fun i => applyLin jumpInvCols (jumpEnc (1 <<< i))) =
      (List.range 256).map (fun i => 1 <<< i) := by
    apply List.map_congr_left
    intro i hi
    exact jump_col_check i (List.mem_range.mp hi)
  rw [hmap] at h1
  simp only [] at h1 h2
  rw [h1, ← h2]

lemma jump_nonzero {g : Xoshiro256AARng} (hW : g.Wf) (h : ¬ g.AllZero) :
    ¬ (g.jump).AllZero := by
  intro hz
  rw [allZero_iff] at hz h
  apply h
  have hj : jumpEnc (enc g) = 0 := by
    unfold jumpEnc
    rw [dec_enc hW, hz, enc_zero]
  have hv := inv_comp (enc_lt hW)
  rw [hj, applyLin_zero] at hv
  have hg : g = dec (enc g) := (dec_enc hW).symm
  rw [hg, ← hv]
  decide

lemma fillVia_preserves {σ : Type} (next : σ → Nat × σ) (P : σ → Prop)
    (hP : ∀ g, P g → P (next g).2) :
    ∀ (len : Nat) (g : σ), P g → P (fillBytesVia next g len).2 := by
  intro len
  induction len using Nat.strong_induction_on with
  | _ len ih =>
    intro g hg
    rw [fillBytesVia]
    split_ifs with hA hB
    · exact hg
    · exact ih (len - 8) (by omega) _ (hP g hg)
    · exact hP g hg

lemma read_le_lt (l : List Nat) : read_u64_le l < 256 ^ l.length := by
  induction l with
  | nil => simp [read_u64_le]
  | cons b t ih =>
    show b % 256 + 256 * read_u64_le t < 256 ^ (t.length + 1)
    have hb : b % 256 < 256 := Nat.mod_lt _ (by norm_num)
    rw [pow_succ]
    have h2 : 256 * read_u64_le t + 256 ≤ 256 * 256 ^ t.length := by omega
    omega

lemma read8_lt (l : List Nat) : read_u64_le (l.take 8) < 2 ^ 64 := by
  have h := read_le_lt (l.take 8)
  have hlen : (l.take 8).length ≤ 8 := by simp [List.length_take]
  have hp : (256 : Nat) ^ (l.take 8).length ≤ 256 ^ 8 :=
    Nat.pow_le_pow_right (by norm_num) hlen
  calc read_u64_le (l.take 8) < 256 ^ (l.take 8).length := h
    _ ≤ 256 ^ 8 := hp
    _ = 2 ^ 64 := by norm_num

lemma from_seed_wf (seed : List Nat) : (Xoshiro256AARng.from_seed seed).Wf := by
  unfold Xoshiro256AARng.from_seed
  dsimp only
  split_ifs with h
  · exact ⟨by norm_num, by norm_num, by norm_num, by norm_num⟩
  · exact ⟨read8_lt _, read8_lt _, read8_lt _, read8_lt _⟩

lemma from_seed_nonzero (seed : List Nat) : ¬ (Xoshiro256AARng.from_seed seed).AllZero := by
  unfold Xoshiro256AARng.from_seed
  dsimp only
  split_ifs with h
  · intro hz
    obtain ⟨h0, _, _, _⟩ := hz
    simp at h0
  · intro hz
    exact h hz

lemma from_rng_ok {ε : Type} :
    ∀ (draws : List (Except ε (List Nat))) (g : Xoshiro256AARng),
      Xoshiro256AARng.from_rng draws = Except.ok (some g) → ¬ g.AllZero ∧ g.Wf := by
  intro draws
  induction draws with
  | nil =>
    intro g h
    simp [Xoshiro256AARng.from_rng] at h
  | cons d rest ih =>
    intro g h
    cases d with
    | error e => simp [Xoshiro256AARng.from_rng] at h
    | ok bytes =>
      rw [Xoshiro256AARng.from_rng] at h
      by_cases hz : read_u64_le (bytes.take 8) = 0 ∧ read_u64_le ((bytes.drop 8).take 8) = 0 ∧
          read_u64_le ((bytes.drop 16).take 8) = 0 ∧ read_u64_le ((bytes.drop 24).take 8) = 0
      · rw [if_pos hz] at h
        exact ih g h
      · rw [if_neg hz] at h
        simp only [Except.ok.injEq, Option.some.injEq] at h
        subst h
        exact ⟨fun haz => hz haz, read8_lt _, read8_lt _, read8_lt _, read8_lt _⟩

/-- C7: the all-zero state is unreachable: next_u64 (hence next_u32 and
fill_bytes, which step through next_u64) and jump preserve both
non-all-zero-ness and 64-bit well-formedness of the four state words, and
from_seed and from_rng only ever construct non-all-zero well-formed states. -/
theorem c7_nonzero_invariant :
    (∀ g : Xoshiro256AARng, ¬ g.AllZero → ¬ ((g.next_u64).2).AllZero) ∧
    (∀ g : Xoshiro256AARng, ¬ g.AllZero → ¬ ((g.next_u32).2).AllZero) ∧
    (∀ (g : Xoshiro256AARng) (len : Nat), ¬ g.AllZero → ¬ ((g.fill_bytes len).2).AllZero) ∧
    (∀ g : Xoshiro256AARng, g.Wf → ¬ g.AllZero → ¬ (g.jump).AllZero) ∧
    (∀ seed : List Nat, ¬ (Xoshiro256AARng.from_seed seed).AllZero) ∧
    (∀ (ε : Type) (draws : List (Except ε (List Nat))) (g : Xoshiro256AARng),
        Xoshiro256AARng.from_rng draws = Except.ok (some g) → ¬ g.AllZero) ∧
    (∀ g : Xoshiro256AARng, g.Wf → ((g.next_u64).2).Wf) ∧
    (∀ (g : Xoshiro256AARng) (len : Nat), g.Wf → ((g.fill_bytes len).2).Wf) ∧
    (∀ g : Xoshiro256AARng, g.Wf → (g.jump).Wf) ∧
    (∀ seed : List Nat, (Xoshiro256AARng.from_seed seed).Wf) ∧
    (∀ (ε : Type) (draws : List (Except ε (List Nat))) (g : Xoshiro256AARng),
        Xoshiro256AARng.from_rng draws = Except.ok (some g) → g.Wf) := by
  have hstep : ∀ g : Xoshiro256AARng, ¬ g.AllZero → ¬ ((g.next_u64).2).AllZero :=
    fun g h hz => h (step_allZero hz)
  refine ⟨hstep, fun g h => hstep g h, ?_, fun g hW h => jump_nonzero hW h,
    from_seed_nonzero, fun ε draws g h => (from_rng_ok draws g h).1,
    fun g h => step_wf h, ?_, fun g h => jump_wf h, from_seed_wf,
    fun ε draws g h => (from_rng_ok draws g h).2⟩
  · intro g len h
    exact fillVia_preserves Xoshiro256AARng.next_u64
      (fun x => ¬ x.AllZero) (fun x hx => hstep x hx) len g h
  · intro g len h
    exact fillVia_preserves Xoshiro256AARng.next_u64
      (fun x => x.Wf) (fun x hx => step_wf hx) len g h

/-- C7 witness: the invariant instantiated on the generator seeded with bytes
0..31 and on concrete from_rng traces. -/
theorem c7_witness :
    (¬ (Xoshiro256AARng.from_seed (List.range 32)).AllZero ∧
     (Xoshiro256AARng.from_seed (List.range 32)).Wf) ∧
    ¬ (((Xoshiro256AARng.from_seed (List.range 32)).next_u64).2).AllZero ∧
    ¬ (((Xoshiro256AARng.from_seed (List.range 32)).next_u32).2).AllZero ∧
    ¬ (((Xoshiro256AARng.from_seed (List.range 32)).fill_bytes 20).2).AllZero ∧
    ¬ ((Xoshiro256AARng.from_seed (List.range 32)).jump).AllZero ∧
    (Xoshiro256AARng.from_rng [(Except.ok (List.range 32) : Except Nat (List Nat))] =
        Except.ok (some ⟨read_u64_le ((List.range 32).take 8),
          read_u64_le (((List.range 32).drop 8).take 8),
          read_u64_le (((List.range 32).drop 16).take 8),
          read_u64_le (((List.range 32).drop 24).take 8)⟩) →
      ¬ (⟨read_u64_le ((List.range 32).take 8),
          read_u64_le (((List.range 32).drop 8).take 8),
          read_u64_le (((List.range 32).drop 16).take 8),
          read_u64_le (((List.range 32).drop 24).take 8)⟩ : Xoshiro256AARng).AllZero) :=
  ⟨⟨c7_nonzero_invariant.2.2.2.2.1 (List.range 32),
    c7_nonzero_invariant.2.2.2.2.2.2.2.2.2.1 (List.range 32)⟩,
   c7_nonzero_invariant.1 _ (c7_nonzero_invariant.2.2.2.2.1 (List.range 32)),
   c7_nonzero_invariant.2.1 _ (c7_nonzero_invariant.2.2.2.2.1 (List.range 32)),
   c7_nonzero_invariant.2.2.1 _ 20 (c7_nonzero_invariant.2.2.2.2.1 (List.range 32)),
   c7_nonzero_invariant.2.2.2.1 _
     (c7_nonzero_invariant.2.2.2.2.2.2.2.2.2.1 (List.range 32))
     (c7_nonzero_invariant.2.2.2.2.1 (List.range 32)),
   fun h => c7_nonzero_invariant.2.2.2.2.2.1 Nat _ _ h⟩

theorem c5_witness :
    (List.range 16).length = 16 ∧
    ((PcgRng.from_seed (List.range 16)).inc =
        ((read_u64_le (((List.range 16).drop 8).take 8) <<< 1) % 2 ^ 64) ||| 1 ∧
     (PcgRng.from_seed (List.range 16)).inc % 2 = 1 ∧
     (PcgRng.from_seed (List.range 16)).state =
        (((((read_u64_le (((List.range 16).drop 8).take 8) <<< 1) % 2 ^ 64) ||| 1) +
              read_u64_le ((List.range 16).take 8)) * 6364136223846793005 +
          (((read_u64_le (((List.range 16).drop 8).take 8) <<< 1) % 2 ^ 64) ||| 1)) % 2 ^ 64) :=
  ⟨by decide, c5_from_seed (List.range 16) (by decide)⟩

end RandSpec
